import Mathlib

/-!
Shallow embedding of the `mathe_core_mlib` library
(`src/mathe_core_mlib/io/folders.py` and `src/mathe_core_mlib/math/converters.py`)
together with theorems settling the specification claims.

The io layer is modelled purely: an `ExperimentFolder` carries the directory
path string, the finalization flag and the folder contents (an association
list from file name inside the folder to file content).  Python string and
posix path primitives used by the code are modelled on ASCII strings.

The converter layer is modelled twice, at the two levels of precision the
code mixes:
* the shared validation step `_validate_positive` is modelled over `PyFloat`
  (a rational number or NaN) so that the IEEE rule that every ordering
  comparison against NaN is false is captured exactly as numpy evaluates
  `np.any(value <= 0)`;
* the numeric formulas are modelled over the real numbers (NaN-free), the
  mathematical reading of the floating point formulas, with the
  scalar-in/scalar-out and array-in/array-out convention
  (`result.item() if result.ndim == 0 else result`) made explicit by the
  `ArrayLike` type.
-/

namespace MatheCoreMlib

/-! ### Python string primitives (ASCII model) -/

/-- Python `str.lower` restricted to ASCII: every character lowercased. -/
def pyLower (s : String) : String :=
  String.mk (s.data.map Char.toLower)

/-- Python `str.capitalize` restricted to ASCII: the first character is
uppercased and every remaining character is lowercased. -/
def pyCapitalize (s : String) : String :=
  match s.data with
  | [] => ""
  | c :: cs => String.mk (Char.toUpper c :: cs.map Char.toLower)

/-- Whether the first character of `s` is the posix path separator. -/
def startsWithSep (s : String) : Bool :=
  decide (s.data.head? = some '/')

/-- Whether the last character of `s` is the posix path separator. -/
def endsWithSep (s : String) : Bool :=
  decide (s.data.getLast? = some '/')

/-- `os.path.join(a, b)` on posix for two components: if `b` is absolute it
replaces `a`; otherwise `b` is appended to `a`, inserting a separator unless
`a` is empty or already ends with one. -/
def posixJoin (a b : String) : String :=
  if startsWithSep b then b
  else if a = "" ∨ endsWithSep a then a ++ b
  else a ++ "/" ++ b

/-- `os.path.basename(p)` on posix: the part of `p` after the last separator
(the whole string when no separator occurs). -/
def posixBasename (p : String) : String :=
  String.mk ((p.data.reverse.takeWhile (fun c => c ≠ '/')).reverse)

/-- `os.path.isabs(s)` on posix: `s` starts with the separator. -/
def pyIsAbs (s : String) : Bool := startsWithSep s

/-! ### Experiment folder model (`io/folders.py`) -/

/-- State of one `ExperimentFolder` instance together with the on-disk
contents of its directory: `path` is `self.path`, `finalized` is
`self._finalized`, and `files` associates each file name inside the folder
to its content.  Contents are keyed by name relative to the folder, so a
directory rename leaves `files` untouched, as it does on disk. -/
structure ExperimentFolder where
  path : String
  finalized : Bool
  files : List (String × String)
deriving DecidableEq

/-- The folder name parts built in `__init__`: the timestamp, then the
version when non-empty (Python truthiness of `if version:`), then the tag. -/
def folder_name_parts (timestamp version tag : String) : List String :=
  [timestamp] ++ (if version ≠ "" then [version] else []) ++ [tag]

/-- `"_".join(folder_name_parts)` from `__init__`. -/
def mk_folder_name (timestamp version tag : String) : String :=
  String.intercalate "_" (folder_name_parts timestamp version tag)

/-- `ExperimentFolder.__init__`: `self.path = os.path.join(base_path,
self.folder_name)`, the directory is created, `self._finalized = False`.
The timestamp captured from the clock is passed in as a parameter. -/
def ExperimentFolder.init (base_path tag version timestamp : String) :
    ExperimentFolder :=
  { path := posixJoin base_path (mk_folder_name timestamp version tag)
    finalized := false
    files := [] }

/-- `get_path`: `os.path.join(self.path, filename)`.  The Python default
argument is `filename = ""`. -/
def ExperimentFolder.get_path (f : ExperimentFolder) (filename : String) :
    String :=
  posixJoin f.path filename

/-- Writing a file into the folder contents, overwriting any existing entry
of the same name (Python `open(..., "w")` / `shutil.copyfile` semantics). -/
def fsWrite (files : List (String × String)) (name content : String) :
    List (String × String) :=
  files.filter (fun p => p.1 ≠ name) ++ [(name, content)]

/-- `save_text`: writes `content` to `filename` inside the folder. -/
def ExperimentFolder.save_text (f : ExperimentFolder)
    (filename content : String) : ExperimentFolder :=
  { f with files := fsWrite f.files filename content }

/-- The destination file name resolved by `copy_file`:
`filename = new_name if new_name else os.path.basename(src_path)`.
`new_name` is truthy exactly when it is neither `None` nor the empty
string. -/
def copy_dest_name (src_path : String) (new_name : Option String) : String :=
  match new_name with
  | some n => if n = "" then posixBasename src_path else n
  | none => posixBasename src_path

/-- `copy_file` on an existing source file with content `src_content`:
copies it into the folder under the resolved destination name. -/
def ExperimentFolder.copy_file (f : ExperimentFolder)
    (src_path src_content : String) (new_name : Option String) :
    ExperimentFolder :=
  { f with files := fsWrite f.files (copy_dest_name src_path new_name) src_content }

/-- `finish(status, info_msg)`.  `renameOk` models whether the
`os.rename` call succeeds; on failure the code catches the `OSError`,
prints it and returns, leaving `path` and `_finalized` untouched.  The
log file is written before the rename, exactly as in the source:

* already finalized: return immediately;
* `suffix = "_" + status.capitalize()`, `new_path = self.path + suffix`;
* when `info_msg` is truthy (non-empty), write it to `Success.txt` when
  `status.lower() == "success"`, else to `Error.txt`;
* attempt the rename; on success set `self.path = new_path` and
  `self._finalized = True`. -/
def ExperimentFolder.finish (f : ExperimentFolder)
    (status info_msg : String) (renameOk : Bool) : ExperimentFolder :=
  if f.finalized then f
  else
    let new_path := f.path ++ "_" ++ pyCapitalize status
    let f1 :=
      if info_msg ≠ "" then
        f.save_text
          (if pyLower status = "success" then "Success.txt" else "Error.txt")
          info_msg
      else f
    if renameOk then { f1 with path := new_path, finalized := true } else f1

/-! ### Converter model (`math/converters.py`) -/

/-- The `ErrorMode` literal type: `'raise' | 'warn' | 'ignore'`. -/
inductive ErrorMode where
  | raiseMode
  | warnMode
  | ignoreMode
deriving DecidableEq

/-- A floating point value as `_validate_positive` compares it: either NaN
or a finite value (modelled as a rational; the validation step only ever
compares against zero, which rationals capture exactly). -/
inductive PyFloat where
  | nan
  | fin (q : ℚ)
deriving DecidableEq

/-- IEEE comparison `x <= y`: every ordering comparison involving NaN is
false. -/
def pyLe : PyFloat → PyFloat → Bool
  | .nan, _ => false
  | _, .nan => false
  | .fin a, .fin b => decide (a ≤ b)

/-- Outcome of `_validate_positive`: normal return, a `RuntimeWarning`
emitted, or a `ValueError` raised. -/
inductive ValidateOutcome where
  | ok
  | warned
  | raised
deriving DecidableEq

/-- `_validate_positive(value, mode, context)` over the flattened elements
of the input array: under `'ignore'` return immediately; otherwise test
`np.any(value <= 0)` and raise under `'raise'` or warn under `'warn'`. -/
def validate_positive (value : List PyFloat) (mode : ErrorMode) :
    ValidateOutcome :=
  match mode with
  | .ignoreMode => .ok
  | .raiseMode =>
      if value.any (fun v => pyLe v (.fin 0)) then .raised else .ok
  | .warnMode =>
      if value.any (fun v => pyLe v (.fin 0)) then .warned else .ok

/-- `ArrayLike` input/output of the conversion functions: a scalar (which
includes the zero-dimensional array case, unwrapped by `.item()`), or a
one-dimensional array of elements. -/
inductive ArrayLike (α : Type) where
  | scalar (x : α)
  | arr (xs : List α)

/-- The flattened elements of an array-like value. -/
def ArrayLike.elems : ArrayLike ℝ → List ℝ
  | .scalar x => [x]
  | .arr xs => xs

/-- `np.any(value <= 0)` over the (NaN-free) real elements. -/
def anyNonpos (value : ArrayLike ℝ) : Prop :=
  ∃ x ∈ value.elems, x ≤ 0

/-- Elementwise application of a formula, returning a plain scalar for a
scalar input (`result.item() if result.ndim == 0 else result`) and a
same-length array for an array input. -/
def npMap (f : ℝ → ℝ) : ArrayLike ℝ → ArrayLike ℝ
  | .scalar x => .scalar (f x)
  | .arr xs => .arr (xs.map f)

/-- Result of a validated conversion call: a normal return, a return with a
`RuntimeWarning` emitted, or a raised `ValueError` identifying the function
by its context string. -/
inductive ConvOutput where
  | ok (r : ArrayLike ℝ)
  | warned (r : ArrayLike ℝ)
  | raised (context : String)

open scoped Classical

/-- The common body of every positivity-checked conversion function:
`np.asanyarray`, `_validate_positive(value, mode, context)`, then the
elementwise formula with scalar unwrapping. -/
noncomputable def conv_checked (context : String) (f : ℝ → ℝ)
    (value : ArrayLike ℝ) (mode : ErrorMode) : ConvOutput :=
  match mode with
  | .ignoreMode => .ok (npMap f value)
  | .raiseMode =>
      if anyNonpos value then .raised context else .ok (npMap f value)
  | .warnMode =>
      if anyNonpos value then .warned (npMap f value)
      else .ok (npMap f value)

/-- `scipy.constants.c`, the exact SI value used by the code. -/
noncomputable def SPEED_OF_LIGHT : ℝ := 299792458

/-- `10 * np.log10(value)`. -/
noncomputable def lin2db_formula (x : ℝ) : ℝ := 10 * Real.logb 10 x

/-- `10 ** (value_db / 10.0)`. -/
noncomputable def db2lin_formula (d : ℝ) : ℝ := (10 : ℝ) ^ (d / 10)

/-- `10 * np.log10(power_watt) + 30.0`. -/
noncomputable def watt2dbm_formula (p : ℝ) : ℝ := 10 * Real.logb 10 p + 30

/-- `10 ** ((power_dbm - 30.0) / 10.0)`. -/
noncomputable def dbm2watt_formula (d : ℝ) : ℝ := (10 : ℝ) ^ ((d - 30) / 10)

/-- `lin2db(value, mode)`. -/
noncomputable def lin2db (value : ArrayLike ℝ) (mode : ErrorMode) :
    ConvOutput :=
  conv_checked "lin2db" lin2db_formula value mode

/-- `db2lin(value_db)` (no validation, no mode). -/
noncomputable def db2lin (value_db : ArrayLike ℝ) : ArrayLike ℝ :=
  npMap db2lin_formula value_db

/-- `watt2dbm(power_watt, mode)`. -/
noncomputable def watt2dbm (power_watt : ArrayLike ℝ) (mode : ErrorMode) :
    ConvOutput :=
  conv_checked "watt2dbm" watt2dbm_formula power_watt mode

/-- `dbm2watt(power_dbm)` (no validation, no mode). -/
noncomputable def dbm2watt (power_dbm : ArrayLike ℝ) : ArrayLike ℝ :=
  npMap dbm2watt_formula power_dbm

/-- `watt2db(power_watt, mode)`: the body is literally
`return lin2db(power_watt, mode=mode)`. -/
noncomputable def watt2db (power_watt : ArrayLike ℝ) (mode : ErrorMode) :
    ConvOutput :=
  lin2db power_watt mode

/-- `db2watt(value_db)`: the body is literally `return db2lin(value_db)`. -/
noncomputable def db2watt (value_db : ArrayLike ℝ) : ArrayLike ℝ :=
  db2lin value_db

/-- `freq_Hz_to_wavelength_m(freq_Hz, mode)`: `SPEED_OF_LIGHT / freq`. -/
noncomputable def freq_Hz_to_wavelength_m (freq_Hz : ArrayLike ℝ)
    (mode : ErrorMode) : ConvOutput :=
  conv_checked "freq_Hz_to_wavelength_m" (fun f => SPEED_OF_LIGHT / f)
    freq_Hz mode

/-- `wavelength_m_to_freq_Hz(wavelength_m, mode)`: `SPEED_OF_LIGHT / wl`. -/
noncomputable def wavelength_m_to_freq_Hz (wavelength_m : ArrayLike ℝ)
    (mode : ErrorMode) : ConvOutput :=
  conv_checked "wavelength_m_to_freq_Hz" (fun wl => SPEED_OF_LIGHT / wl)
    wavelength_m mode

/-- `wavelength_nm_to_freq_Hz(wavelength_nm, mode)`:
`SPEED_OF_LIGHT / (wl_nm * 1e-9)`. -/
noncomputable def wavelength_nm_to_freq_Hz (wavelength_nm : ArrayLike ℝ)
    (mode : ErrorMode) : ConvOutput :=
  conv_checked "wavelength_nm_to_freq_Hz"
    (fun wl => SPEED_OF_LIGHT / (wl * (1e-9 : ℝ))) wavelength_nm mode

/-- `freq_Hz_to_wavelength_nm(freq_Hz, mode)`:
`(SPEED_OF_LIGHT / freq) * 1e9`. -/
noncomputable def freq_Hz_to_wavelength_nm (freq_Hz : ArrayLike ℝ)
    (mode : ErrorMode) : ConvOutput :=
  conv_checked "freq_Hz_to_wavelength_nm"
    (fun f => SPEED_OF_LIGHT / f * (1e9 : ℝ)) freq_Hz mode

/-- `freq_GHz_to_Hz(freq_GHz)`: `value * 1e9`, no validation. -/
noncomputable def freq_GHz_to_Hz (freq_GHz : ArrayLike ℝ) : ArrayLike ℝ :=
  npMap (fun f => f * (1e9 : ℝ)) freq_GHz

/-- `freq_Hz_to_GHz(freq_Hz)`: `value / 1e9`, no validation. -/
noncomputable def freq_Hz_to_GHz (freq_Hz : ArrayLike ℝ) : ArrayLike ℝ :=
  npMap (fun f => f / (1e9 : ℝ)) freq_Hz

/-- The shape of an array-like value: `none` for a scalar result, `some n`
for an array of length `n`. -/
def alShape : ArrayLike ℝ → Option ℕ
  | .scalar _ => none
  | .arr xs => some xs.length

/-- A mode-taking conversion function preserves shape: whenever it returns
a value (normally or after a warning), a scalar input gave a scalar output
and an array input gave an array output of the same length. -/
def preservesShapeChecked (g : ArrayLike ℝ → ErrorMode → ConvOutput) :
    Prop :=
  ∀ value mode r,
    (g value mode = .ok r ∨ g value mode = .warned r) →
    alShape r = alShape value

/-- A plain conversion function preserves shape. -/
def preservesShapePlain (g : ArrayLike ℝ → ArrayLike ℝ) : Prop :=
  ∀ value, alShape (g value) = alShape value

/-! ### Helper lemmas -/

/-- `save_text` changes only the folder contents. -/
theorem save_text_path (f : ExperimentFolder) (n c : String) :
    (f.save_text n c).path = f.path := rfl

/-- `save_text` leaves the finalization flag alone. -/
theorem save_text_finalized (f : ExperimentFolder) (n c : String) :
    (f.save_text n c).finalized = f.finalized := rfl

/-- Prepending a non-empty string fixes the first character. -/
theorem startsWithSep_append (a b : String) (ha : a ≠ "") :
    startsWithSep (a ++ b) = startsWithSep a := by
  unfold startsWithSep
  rw [String.data_append, List.head?_append_of_ne_nil]
  intro hnil
  exact ha (String.ext (hnil.trans rfl))

/-- Mapping a formula over an array-like value preserves its shape. -/
theorem alShape_npMap (f : ℝ → ℝ) (v : ArrayLike ℝ) :
    alShape (npMap f v) = alShape v := by
  cases v <;> simp [npMap, alShape]

/-- The common validated-conversion body preserves shape whenever it
returns a value. -/
theorem conv_checked_shape (context : String) (f : ℝ → ℝ)
    (v : ArrayLike ℝ) (m : ErrorMode) (r : ArrayLike ℝ)
    (h : conv_checked context f v m = .ok r ∨
      conv_checked context f v m = .warned r) :
    alShape r = alShape v := by
  cases m with
  | raiseMode =>
      by_cases hv : anyNonpos v
      · simp [conv_checked, hv] at h
      · simp [conv_checked, hv] at h
        rw [← h]; exact alShape_npMap f v
  | warnMode =>
      by_cases hv : anyNonpos v
      · simp [conv_checked, hv] at h
        rw [← h]; exact alShape_npMap f v
      · simp [conv_checked, hv] at h
        rw [← h]; exact alShape_npMap f v
  | ignoreMode =>
      simp [conv_checked] at h
      rw [← h]; exact alShape_npMap f v

/-- A `finish` call whose rename fails leaves the path and the
finalization flag untouched. -/
theorem finish_rename_failed_state (f : ExperimentFolder)
    (st msg : String) (h : f.finalized = false) :
    (f.finish st msg false).path = f.path ∧
    (f.finish st msg false).finalized = false := by
  by_cases hm : msg = "" <;>
    simp [ExperimentFolder.finish, h, hm, ExperimentFolder.save_text]

/-- A scalar strictly positive input passes the `np.any(value <= 0)`
test. -/
theorem not_anyNonpos_scalar {x : ℝ} (hx : 0 < x) :
    ¬ anyNonpos (ArrayLike.scalar x) := by
  rintro ⟨y, hy, hle⟩
  simp [ArrayLike.elems] at hy
  subst hy
  linarith

/-! ### Claim theorems -/

/-- C4: finalization happens at most once; after a `finish` call whose
rename succeeds, any later `finish` call (any status, message and rename
outcome) returns the state exactly as the first call left it: same path,
same finalization flag, same folder contents. -/
theorem c4_finish_at_most_once (f : ExperimentFolder)
    (st msg st2 msg2 : String) (ok2 : Bool) :
    (f.finish st msg true).finish st2 msg2 ok2 = f.finish st msg true := by
  by_cases h : f.finalized
  · simp [ExperimentFolder.finish, h]
  · by_cases hm : msg = "" <;>
      simp [ExperimentFolder.finish, h, hm, ExperimentFolder.save_text]

/-- C5: when the rename inside `finish` fails, the call returns normally
with the path attribute unchanged and the entity still un-finalized. -/
theorem c5_rename_failure_keeps_state (f : ExperimentFolder)
    (st msg : String) (h : f.finalized = false) :
    (f.finish st msg false).path = f.path ∧
    (f.finish st msg false).finalized = false :=
  finish_rename_failed_state f st msg h

/-- Witness for C5 at a concrete un-finalized folder. -/
theorem c5_rename_failure_keeps_state_witness :
    ({ path := "/tmp/exp", finalized := false, files := [] } :
      ExperimentFolder).finalized = false ∧
    ((({ path := "/tmp/exp", finalized := false, files := [] } :
      ExperimentFolder).finish "fail" "boom" false).path = "/tmp/exp" ∧
    (({ path := "/tmp/exp", finalized := false, files := [] } :
      ExperimentFolder).finish "fail" "boom" false).finalized = false) :=
  ⟨rfl, c5_rename_failure_keeps_state _ "fail" "boom" rfl⟩

/-- C9: `copy_file` with `new_name` equal to the empty string behaves
exactly as with `new_name` omitted (`None`): both fall back to the source
path's base name, because `new_name if new_name else basename(src)`
treats the empty string as falsy. -/
theorem c9_copy_empty_new_name (f : ExperimentFolder)
    (src_path src_content : String) :
    f.copy_file src_path src_content (some "") =
      f.copy_file src_path src_content none := by
  simp [ExperimentFolder.copy_file, copy_dest_name]

/-- C2 counterexample: `finish` uses Python `str.capitalize`, which also
lowercases the tail of the status label; status `"FAIL"` produces the
suffix `"_Fail"`, not the claimed `"_FAIL"`. -/
theorem c2_counterexample :
    (({ path := "/tmp/exp", finalized := false, files := [] } :
      ExperimentFolder).finish "FAIL" "" true).path = "/tmp/exp_Fail" ∧
    "/tmp/exp_Fail" ≠ "/tmp/exp_FAIL" := by
  constructor
  · rfl
  · decide

/-- C2 amended: `finish` on a not-yet-finalized folder with a successful
rename appends an underscore followed by the status with its first
character uppercased and all remaining characters lowercased. -/
theorem c2_amended_capitalize (f : ExperimentFolder) (status msg : String)
    (c : Char) (cs : List Char) (h : f.finalized = false)
    (hst : status.data = c :: cs) :
    (f.finish status msg true).path =
      f.path ++ "_" ++ String.mk (Char.toUpper c :: cs.map Char.toLower) := by
  have hcap : pyCapitalize status =
      String.mk (Char.toUpper c :: cs.map Char.toLower) := by
    unfold pyCapitalize
    rw [hst]
  by_cases hm : msg = "" <;>
    simp [ExperimentFolder.finish, h, hm, ExperimentFolder.save_text, hcap]

/-- Witness for the amended C2 at status `"FAIL"`. -/
theorem c2_amended_capitalize_witness :
    ({ path := "/tmp/exp", finalized := false, files := [] } :
      ExperimentFolder).finalized = false ∧
    ("FAIL" : String).data = 'F' :: ['A', 'I', 'L'] ∧
    (({ path := "/tmp/exp", finalized := false, files := [] } :
      ExperimentFolder).finish "FAIL" "" true).path =
      "/tmp/exp" ++ "_" ++
        String.mk (Char.toUpper 'F' :: ['A', 'I', 'L'].map Char.toLower) :=
  ⟨rfl, rfl, c2_amended_capitalize _ "FAIL" "" 'F' ['A', 'I', 'L'] rfl rfl⟩

/-- C10: after a `finish` whose rename failed, the entity is still not
finalized, and a later `finish` call with a successful rename and a
non-empty message re-runs the full finalization: it rewrites the status
file and renames the directory. -/
theorem c10_refinish_after_failure (f : ExperimentFolder)
    (st msg st2 msg2 : String) (h : f.finalized = false) (h2 : msg2 ≠ "") :
    (f.finish st msg false).finalized = false ∧
    (f.finish st msg false).finish st2 msg2 true =
      { path := (f.finish st msg false).path ++ "_" ++ pyCapitalize st2,
        finalized := true,
        files := fsWrite (f.finish st msg false).files
          (if pyLower st2 = "success" then "Success.txt" else "Error.txt")
          msg2 } := by
  have h1 : (f.finish st msg false).finalized = false :=
    (finish_rename_failed_state f st msg h).2
  refine ⟨h1, ?_⟩
  generalize f.finish st msg false = g at h1 ⊢
  simp [ExperimentFolder.finish, h1, h2, ExperimentFolder.save_text]

/-- Witness for C10 at a concrete un-finalized folder whose first
`finish` failed to rename. -/
theorem c10_refinish_after_failure_witness :
    (⟨"/tmp/exp", false, []⟩ :
      ExperimentFolder).finalized = false ∧
    ("oops" : String) ≠ "" ∧
    (((⟨"/tmp/exp", false, []⟩ :
      ExperimentFolder).finish "fail" "" false).finalized = false ∧
    ((⟨"/tmp/exp", false, []⟩ :
      ExperimentFolder).finish "fail" "" false).finish "fail" "oops" true =
      { path := ((⟨"/tmp/exp", false, []⟩ :
            ExperimentFolder).finish "fail" "" false).path ++ "_" ++
            pyCapitalize "fail",
        finalized := true,
        files := fsWrite ((⟨"/tmp/exp", false, []⟩ :
            ExperimentFolder).finish "fail" "" false).files
          (if pyLower "fail" = "success" then "Success.txt" else "Error.txt")
          "oops" }) :=
  ⟨rfl, by decide,
    c10_refinish_after_failure _ "fail" "" "fail" "oops" rfl (by decide)⟩

/-- C3 counterexample: with the relative base path `"./results"` (the very
example in the constructor docstring), the entity's path attribute is not
absolute, and `get_path` with the filename omitted returns the folder path
followed by a trailing separator, not the folder path itself. -/
theorem c3_counterexample :
    pyIsAbs (ExperimentFolder.init "./results" "sim" ""
      "2023-10-27_14-30-00").path = false ∧
    (ExperimentFolder.init "./results" "sim" ""
      "2023-10-27_14-30-00").get_path "" ≠
      (ExperimentFolder.init "./results" "sim" ""
        "2023-10-27_14-30-00").path := by
  decide

/-- C3 amended: the entity's path attribute is the base path joined with
the composed folder name and is absolute exactly when the base path is;
`get_path` with the filename omitted returns the folder path followed by a
trailing separator; `get_path` on a non-empty filename that does not start
with a separator returns the path of that filename inside the folder. -/
theorem c3_amended_paths (base_path tag version timestamp fname : String)
    (hname : startsWithSep (mk_folder_name timestamp version tag) = false)
    (hpath0 :
      (ExperimentFolder.init base_path tag version timestamp).path ≠ "")
    (hsep : endsWithSep
      (ExperimentFolder.init base_path tag version timestamp).path = false)
    (_hf : fname ≠ "") (hfa : startsWithSep fname = false) :
    pyIsAbs (ExperimentFolder.init base_path tag version timestamp).path =
      pyIsAbs base_path ∧
    (ExperimentFolder.init base_path tag version timestamp).get_path "" =
      (ExperimentFolder.init base_path tag version timestamp).path ++ "/" ∧
    (ExperimentFolder.init base_path tag version timestamp).get_path fname =
      (ExperimentFolder.init base_path tag version timestamp).path ++ "/" ++
        fname := by
  refine ⟨?_, ?_, ?_⟩
  · show pyIsAbs (posixJoin base_path
      (mk_folder_name timestamp version tag)) = pyIsAbs base_path
    by_cases hb : base_path = ""
    · subst hb
      simp [posixJoin, hname, pyIsAbs]
      decide
    · by_cases he : endsWithSep base_path = true
      · simp only [posixJoin, hname, he, Bool.false_eq_true, if_false,
          or_true, if_true]
        exact startsWithSep_append base_path _ hb
      · simp only [posixJoin, hname, he, Bool.false_eq_true, if_false,
          or_false, hb]
        rw [String.append_assoc]
        exact startsWithSep_append base_path _ hb
  · show posixJoin
      (ExperimentFolder.init base_path tag version timestamp).path "" = _
    simp [posixJoin, startsWithSep, hpath0, hsep]
  · show posixJoin
      (ExperimentFolder.init base_path tag version timestamp).path fname = _
    simp [posixJoin, hfa, hpath0, hsep]

/-- Witness for the amended C3 at the concrete relative base path. -/
theorem c3_amended_paths_witness :
    startsWithSep (mk_folder_name "2023-10-27_14-30-00" "" "sim") = false ∧
    (ExperimentFolder.init "./results" "sim" ""
      "2023-10-27_14-30-00").path ≠ "" ∧
    endsWithSep (ExperimentFolder.init "./results" "sim" ""
      "2023-10-27_14-30-00").path = false ∧
    ("data.csv" : String) ≠ "" ∧
    startsWithSep "data.csv" = false ∧
    (pyIsAbs (ExperimentFolder.init "./results" "sim" ""
        "2023-10-27_14-30-00").path = pyIsAbs "./results" ∧
      (ExperimentFolder.init "./results" "sim" ""
        "2023-10-27_14-30-00").get_path "" =
        (ExperimentFolder.init "./results" "sim" ""
          "2023-10-27_14-30-00").path ++ "/" ∧
      (ExperimentFolder.init "./results" "sim" ""
        "2023-10-27_14-30-00").get_path "data.csv" =
        (ExperimentFolder.init "./results" "sim" ""
          "2023-10-27_14-30-00").path ++ "/" ++ "data.csv") :=
  ⟨by decide, by decide, by decide, by decide, by decide,
    c3_amended_paths "./results" "sim" "" "2023-10-27_14-30-00" "data.csv"
      (by decide) (by decide) (by decide) (by decide) (by decide)⟩

/-- C1 evaluation at the failing input: a NaN element under mode `raise`
(and `warn`) passes `_validate_positive` silently, because
`np.any(value <= 0)` is false on NaN; the claimed `ValueError` is never
raised, contradicting the validation step's own error message, which says
NaN values are detected. -/
theorem c1_nan_passes_validation :
    validate_positive [PyFloat.nan] ErrorMode.raiseMode =
      ValidateOutcome.ok ∧
    validate_positive [PyFloat.nan] ErrorMode.warnMode =
      ValidateOutcome.ok := by
  constructor <;> rfl

/-- C6: the logarithmic conversions round-trip exactly in the real-number
model: for `x > 0`, `lin2db` (mode `raise`) succeeds and `db2lin` maps the
result back to `x`; for `p > 0`, `watt2dbm` succeeds and `dbm2watt` maps
the result back to `p`. -/
theorem c6_log_roundtrip (x p : ℝ) (hx : 0 < x) (hp : 0 < p) :
    lin2db (.scalar x) .raiseMode = .ok (.scalar (lin2db_formula x)) ∧
    db2lin (.scalar (lin2db_formula x)) = .scalar x ∧
    watt2dbm (.scalar p) .raiseMode = .ok (.scalar (watt2dbm_formula p)) ∧
    dbm2watt (.scalar (watt2dbm_formula p)) = .scalar p := by
  have hnx := not_anyNonpos_scalar hx
  have hnp := not_anyNonpos_scalar hp
  refine ⟨?_, ?_, ?_, ?_⟩
  · simp [lin2db, conv_checked, hnx, npMap]
  · show ArrayLike.scalar (db2lin_formula (lin2db_formula x)) =
      ArrayLike.scalar x
    congr 1
    unfold db2lin_formula lin2db_formula
    rw [mul_div_cancel_left₀ _ (show (10:ℝ) ≠ 0 by norm_num)]
    exact Real.rpow_logb (by norm_num) (by norm_num) hx
  · simp [watt2dbm, conv_checked, hnp, npMap]
  · show ArrayLike.scalar (dbm2watt_formula (watt2dbm_formula p)) =
      ArrayLike.scalar p
    congr 1
    unfold dbm2watt_formula watt2dbm_formula
    rw [add_sub_cancel_right,
      mul_div_cancel_left₀ _ (show (10:ℝ) ≠ 0 by norm_num)]
    exact Real.rpow_logb (by norm_num) (by norm_num) hp

/-- Witness for C6 at `x = 1`, `p = 1`. -/
theorem c6_log_roundtrip_witness :
    (0:ℝ) < 1 ∧
    (lin2db (.scalar 1) .raiseMode = .ok (.scalar (lin2db_formula 1)) ∧
     db2lin (.scalar (lin2db_formula 1)) = .scalar 1 ∧
     watt2dbm (.scalar 1) .raiseMode = .ok (.scalar (watt2dbm_formula 1)) ∧
     dbm2watt (.scalar (watt2dbm_formula 1)) = .scalar 1) :=
  ⟨by norm_num, c6_log_roundtrip 1 1 (by norm_num) (by norm_num)⟩

/-- C7: every conversion function of the library preserves shape: a scalar
(or zero-dimensional) input yields a plain scalar result and an array
input yields an array result of the same length, whenever a result is
returned. -/
theorem c7_shape_preservation :
    preservesShapeChecked lin2db ∧ preservesShapePlain db2lin ∧
    preservesShapeChecked watt2dbm ∧ preservesShapePlain dbm2watt ∧
    preservesShapeChecked watt2db ∧ preservesShapePlain db2watt ∧
    preservesShapeChecked freq_Hz_to_wavelength_m ∧
    preservesShapeChecked wavelength_m_to_freq_Hz ∧
    preservesShapeChecked wavelength_nm_to_freq_Hz ∧
    preservesShapeChecked freq_Hz_to_wavelength_nm ∧
    preservesShapePlain freq_GHz_to_Hz ∧
    preservesShapePlain freq_Hz_to_GHz := by
  refine ⟨?_, ?_, ?_, ?_, ?_, ?_, ?_, ?_, ?_, ?_, ?_, ?_⟩ <;>
    first
      | exact fun v m r h => conv_checked_shape _ _ v m r h
      | exact fun v => alShape_npMap _ v

/-- C8: `watt2db` delegates to `lin2db` and `db2watt` delegates to
`db2lin`, so each pair agrees on every input (same results, same raised
errors and warnings in the same cases). -/
theorem c8_watt_db_delegation :
    (∀ (value : ArrayLike ℝ) (mode : ErrorMode),
      watt2db value mode = lin2db value mode) ∧
    (∀ value_db : ArrayLike ℝ, db2watt value_db = db2lin value_db) :=
  ⟨fun _ _ => rfl, fun _ => rfl⟩

end MatheCoreMlib
